import Mathlib

/-
Verification of the authentication/session module `app/services/auth.py`:
password verification, token issuance/verification (access and refresh scopes),
credential authentication, refresh-token rotation and bearer-token resolution.

Shallow embedding conventions:
- Python dicts carrying JSON-like claim values become association lists over
  `JVal`; `dict.update` with a single key becomes `dset` (prepend the new
  binding and drop older bindings of the same key — lookup-equivalent to the
  in-place update).
- Machine time (`datetime.now(UTC)`) is an explicit `now : Nat` parameter in
  seconds; `timedelta(minutes=m)` adds `60 * m`.
- Fallible Python code returns `Except PyErr`; `PyErr` covers the raised
  `HTTPException`s, the `KeyError` from a missing dict key, and the error the
  password library raises on an unidentifiable digest.
- The external JWT codec (jose `jwt.encode` / `jwt.decode`) and the external
  passlib context are not repository code; they are modelled from the spec
  (see the doc comments on `coderEncode`, `coderDecode`, `bcryptCtx`).
- Database rows and the session become an explicit `DB` value; the mutation
  calls of `Auth.refresh` and `Auth.__generate_tokens` additionally emit an
  event trace (`Ev`) so that ordering contracts can be stated.
-/

namespace AuthSpec

/-- A JSON-like value appearing in a token payload: a string, a numeric
timestamp, or Python `None`. -/
inductive JVal where
  | str (s : String)
  | num (n : Nat)
  | null
deriving DecidableEq

/-- A decoded token payload: a Python dict from claim names to values. -/
abbrev Claims := List (String × JVal)

/-- Python equality test between a JSON value and a string (`payload[k] == s`;
also the SQL comparison of a string column with a bound value): true exactly
when the value is that string. -/
def pyEqStr : JVal → String → Bool
  | .str t, s => t == s
  | _, _ => false

/-- `d[k] = v` on a Python dict, modelled lookup-equivalently: the new binding
is prepended and older bindings of `k` are dropped. -/
def dset (d : Claims) (k : String) (v : JVal) : Claims :=
  (k, v) :: d.filter (fun q => !(q.1 == k))

/-- The `TokenScopes` enum of `auth.py`. -/
inductive TokenScopes where
  | ACCESS
  | REFRESH
deriving DecidableEq

/-- The `.value` of a `TokenScopes` member. -/
def TokenScopes.value : TokenScopes → String
  | .ACCESS => "access_token"
  | .REFRESH => "refresh_token"

/-- The `TokenSettings` configuration consumed by `Token` (`app.settings` is
not under `src/`; the spec gives only the field roles: default/access/refresh
TTL in minutes and a signing algorithm identifier). -/
structure TokenSettings where
  DEFAULT_EXPIRED : Nat
  ACCESS_EXPIRED : Nat
  REFRESH_EXPIRED : Nat
  ALGORITHM : String
deriving DecidableEq

/-- A token string. The wire encoding is opaque to this module, so a signed
token is represented by what the codec can recover from it: its payload, the
secret it was signed with and the algorithm identifier; any other string is
`malformed`. Equality on `TokenStr` models string equality of the wire form. -/
inductive TokenStr where
  | signed (payload : Claims) (secret : String) (alg : String)
  | malformed (s : String)
deriving DecidableEq

/-- The single error class of the codec (`JWTError`), caught by
`Token.decode`. -/
inductive CoderErr where
  | jwtError
deriving DecidableEq

/-- Modelled from the spec: the external TokenCodec encode operation
(jose `jwt.encode`, not repository code) — serializes the claims and signs
them with the secret and algorithm (spec section 4.2). -/
def coderEncode (claims : Claims) (secret : String) (alg : String) : TokenStr :=
  .signed claims secret alg

/-- Modelled from the spec: the external TokenCodec decode operation
(jose `jwt.decode`, not repository code) — verifies the signature (secret and
accepted-algorithm match) and the expiry claim, failing with the codec error
on signature/algorithm/malformation problems or an expired token; a token
whose `exp` is not in the future fails (spec sections 4.2 and 8). -/
def coderDecode (t : TokenStr) (secret : String) (algs : List String) (now : Nat) :
    Except CoderErr Claims :=
  match t with
  | .malformed _ => .error .jwtError
  | .signed payload s a =>
    if s ≠ secret then .error .jwtError
    else if a ∉ algs then .error .jwtError
    else
      match List.lookup "exp" payload with
      | some (.num e) => if now < e then .ok payload else .error .jwtError
      | _ => .ok payload

/-- A raised Python exception observable from this module: an
`HTTPException` (status, detail, headers), a `KeyError` on a missing dict
key, or the error the password library raises on an unidentifiable digest. -/
inductive PyErr where
  | http (status : Nat) (detail : String) (headers : List (String × String))
  | keyError (k : String)
  | passlibError (msg : String)
deriving DecidableEq

/-- The dict returned by `Token.create` (`schemas.TokenModel`). -/
structure TokenModel where
  token : TokenStr
  expired_at : Nat
  scope : String
deriving DecidableEq

/-- The constructor state of the `Token` class: signing secret and
configuration. -/
structure TokenCfg where
  secret : String
  config : TokenSettings
deriving DecidableEq

/-- Python truthiness of an `Optional[float]` minutes value: `None`, `0` and
`0.0` are falsy. -/
def pyTruthy : Option Nat → Bool
  | none => false
  | some x => !(x == 0)

/-- Python `a or b` on an `Optional[float]` and a number: yields `a`s value
when `a` is truthy, otherwise `b`. -/
def pyOr (a : Option Nat) (b : Nat) : Nat :=
  if pyTruthy a then a.getD 0 else b

namespace Token

/-- `Token.create`: copy the data, stamp `iat`, `exp` (now plus
`expires_delta` minutes when that is truthy, otherwise now plus
`DEFAULT_EXPIRED` minutes) and `scope`, encode with the secret and configured
algorithm, and return the token dict. -/
def create (cfg : TokenCfg) (data : Claims) (scope : TokenScopes)
    (expires_delta : Option Nat) (now : Nat) : TokenModel :=
  let expired : Nat :=
    if pyTruthy expires_delta then now + 60 * expires_delta.getD 0
    else now + 60 * cfg.config.DEFAULT_EXPIRED
  let to_encode_data :=
    dset (dset (dset data "iat" (.num now)) "exp" (.num expired)) "scope" (.str scope.value)
  { token := coderEncode to_encode_data cfg.secret cfg.config.ALGORITHM
    expired_at := expired
    scope := scope.value }

/-- `Token.decode`: decode via the codec; on codec failure (`JWTError`) raise
401 "Could not validate credentials"; on success compare `payload["scope"]`
with the expected scope, returning the payload on a match and raising
401 "Invalid scope for token" otherwise. A payload without a `"scope"` key
raises `KeyError`, which the `except` clause (matching only the codec error)
does not catch. -/
def decode (cfg : TokenCfg) (token : TokenStr) (scope : TokenScopes) (now : Nat) :
    Except PyErr Claims :=
  match coderDecode token cfg.secret [cfg.config.ALGORITHM] now with
  | .error _ => .error (.http 401 "Could not validate credentials" [])
  | .ok payload =>
    match List.lookup "scope" payload with
    | none => .error (.keyError "scope")
    | some v =>
      if v = JVal.str scope.value then .ok payload
      else .error (.http 401 "Invalid scope for token" [])

/-- `Token.create_access`: access scope, with `expires_delta or ACCESS_EXPIRED`
as the delta. -/
def create_access (cfg : TokenCfg) (data : Claims) (expires_delta : Option Nat)
    (now : Nat) : TokenModel :=
  create cfg data .ACCESS (some (pyOr expires_delta cfg.config.ACCESS_EXPIRED)) now

/-- `Token.create_refresh`: refresh scope, with
`expires_delta or REFRESH_EXPIRED` as the delta. -/
def create_refresh (cfg : TokenCfg) (data : Claims) (expires_delta : Option Nat)
    (now : Nat) : TokenModel :=
  create cfg data .REFRESH (some (pyOr expires_delta cfg.config.REFRESH_EXPIRED)) now

/-- `Token.decode_access`. -/
def decode_access (cfg : TokenCfg) (token : TokenStr) (now : Nat) : Except PyErr Claims :=
  decode cfg token .ACCESS now

/-- `Token.decode_refresh`. -/
def decode_refresh (cfg : TokenCfg) (token : TokenStr) (now : Nat) : Except PyErr Claims :=
  decode cfg token .REFRESH now

end Token

/-- The password context injected into `Password` (passlib `CryptContext`):
a hash capability and a fallible verify capability. -/
structure CryptCtx where
  hash : String → String
  verify : String → String → Except PyErr Bool

namespace Password

/-- `Password.hash`: delegate to the context. -/
def hash (ctx : CryptCtx) (password : String) : String :=
  ctx.hash password

/-- `Password.verify`: delegate to the context, with no exception handling of
its own. -/
def verify (ctx : CryptCtx) (password : String) (h : String) : Except PyErr Bool :=
  ctx.verify password h

end Password

/-- Modelled from the spec: the external passlib
`CryptContext(schemes=[bcrypt])` (not repository code). The spec treats the
hash library as a pluggable hash/verify capability whose digests are
scheme-tagged strings; per the library contract, `verify` raises when the
digest matches no configured scheme (an unidentifiable/malformed digest) and
otherwise returns the boolean comparison outcome. The digest internals are
abstracted as a tagged pairing of the plaintext. -/
def bcryptCtx : CryptCtx where
  hash := fun password => "$2b$" ++ password
  verify := fun password h =>
    if "$2b$".data.isPrefixOf h.data then .ok (h == "$2b$" ++ password)
    else .error (.passlibError "hash could not be identified")

/-- A `User` row: unique email, unique username, password digest (the
`users.models` module is not under `src/`; fields per spec section 3). -/
structure UserM where
  id : Nat
  email : String
  username : String
  password : String
deriving DecidableEq

/-- A refresh-token row (`users.models.Token`): the token string, the expiry,
and the back-reference to the owning user row loaded by `joinedload`
(fields per spec section 3). -/
structure TokenRec where
  token : TokenStr
  user : Option UserM
  expired_at : Nat
deriving DecidableEq

/-- The database visible to this module: user rows and refresh-token rows. -/
structure DB where
  users : List UserM
  records : List TokenRec
deriving DecidableEq

/-- The `OAuth2PasswordRequestForm` fields this module reads. -/
structure Credentials where
  username : String
  password : String
deriving DecidableEq

/-- The dict returned by `Auth.__generate_tokens` (`schemas.TokenPairModel`):
access and refresh token with expiry, and the bearer type tag. -/
structure TokenPair where
  access : TokenStr × Nat
  refresh : TokenStr × Nat
  type : String
deriving DecidableEq

/-- A database mutation event, recorded in order: deletion of a refresh-token
row, insertion of a refresh-token row, session commit. -/
inductive Ev where
  | deleteRec (t : TokenStr)
  | insertRec (t : TokenStr)
  | commit
deriving DecidableEq

namespace Auth

/-- `Auth.not_found_error`: 404 "User not found". -/
def not_found_error : PyErr := .http 404 "User not found" []

/-- `Auth.invalid_credential_error`: 401 "Invalid username or password". -/
def invalid_credential_error : PyErr := .http 401 "Invalid username or password" []

/-- `Auth.invalid_refresh_token_error`: 401 "Invalid refresh token" (declared
on the class; no method of `auth.py` raises it). -/
def invalid_refresh_token_error : PyErr := .http 401 "Invalid refresh token" []

/-- `Auth.credentionals_exception`: 401 "Could not validate credentials" with
a WWW-Authenticate header. -/
def credentionals_exception : PyErr :=
  .http 401 "Could not validate credentials" [("WWW-Authenticate", "Bearer")]

/-- `Auth.__get_user`: first user row whose email or username equals the
argument (`or_` filter, `first()`). The argument is a payload value in the
refresh/resolve paths, so comparison is the string-column comparison
`pyEqStr`. -/
def getUser (username : JVal) (db : DB) : Option UserM :=
  db.users.find? (fun u => pyEqStr username u.email || pyEqStr username u.username)

/-- `Auth.validate`: false when the user is absent, false when the password
check fails, true otherwise; an exception from the password context
propagates. -/
def validate (ctx : CryptCtx) (user : Option UserM) (credentials : Credentials) :
    Except PyErr Bool :=
  match user with
  | none => .ok false
  | some u =>
    match Password.verify ctx credentials.password u.password with
    | .error e => .error e
    | .ok b => if b = false then .ok false else .ok true

/-- `Auth.__generate_tokens`: issue an access and a refresh token for the
user's email, append a refresh-token row owned by the user, commit, and
return the token pair. -/
def generateTokens (cfg : TokenCfg) (user : UserM) (db : DB) (now : Nat) :
    TokenPair × DB × List Ev :=
  let access_token := Token.create_access cfg [("email", .str user.email)] none now
  let refresh_token := Token.create_refresh cfg [("email", .str user.email)] none now
  let token : TokenRec :=
    { token := refresh_token.token, user := some user, expired_at := refresh_token.expired_at }
  ({ access := (access_token.token, access_token.expired_at)
     refresh := (refresh_token.token, refresh_token.expired_at)
     type := "bearer" },
   { db with records := db.records ++ [token] },
   [Ev.insertRec refresh_token.token, Ev.commit])

/-- `Auth.refresh`: decode as a refresh-scope token; look up the stored row by
exact token string; read `payload["email"]` (a `KeyError` when absent) and
resolve the user; if the row was found, delete it and commit; then raise the
generic `credentionals_exception` when the user is absent, the row is absent,
or the row's owner differs from the resolved user; otherwise issue a fresh
pair. Returns the result together with the final database and the ordered
mutation trace. -/
def refresh (cfg : TokenCfg) (refres_token_str : TokenStr) (db : DB) (now : Nat) :
    Except PyErr TokenPair × DB × List Ev :=
  match Token.decode_refresh cfg refres_token_str now with
  | .error e => (.error e, db, [])
  | .ok payload =>
    let refres_token := db.records.find? (fun r => r.token == refres_token_str)
    match List.lookup "email" payload with
    | none => (.error (.keyError "email"), db, [])
    | some email =>
      let user := getUser email db
      let step : DB × List Ev :=
        match refres_token with
        | some r => ({ db with records := db.records.erase r }, [Ev.deleteRec r.token, Ev.commit])
        | none => (db, [])
      match user, refres_token with
      | none, _ => (.error credentionals_exception, step.1, step.2)
      | some _, none => (.error credentionals_exception, step.1, step.2)
      | some u, some r =>
        if r.user ≠ some u then (.error credentionals_exception, step.1, step.2)
        else
          let g := generateTokens cfg u step.1 now
          (.ok g.1, g.2.1, step.2 ++ g.2.2)

/-- `Auth.authenticate`: look up the user by username-or-email; when
`validate` is false raise `invalid_credential_error`; otherwise issue and
persist a token pair. -/
def authenticate (ctx : CryptCtx) (cfg : TokenCfg) (credentials : Credentials)
    (db : DB) (now : Nat) : Except PyErr (TokenPair × DB) :=
  let user := getUser (.str credentials.username) db
  match validate ctx user credentials with
  | .error e => .error e
  | .ok b =>
    if b = false then .error invalid_credential_error
    else
      match user with
      | some u =>
        let g := generateTokens cfg u db now
        .ok (g.1, g.2.1)
      | none => .error invalid_credential_error

/-- `Auth.logout`: an unconditional no-op. -/
def logout (_token_str : TokenStr) (db : DB) : Except PyErr Unit × DB :=
  (.ok (), db)

/-- `Auth.__call__` (bearer-token resolution): decode as an access-scope
token; `payload["email"]` (a `KeyError` when the key is absent); raise
`credentionals_exception` when the value is `None`; look up the user and raise
`not_found_error` when absent; otherwise return the user. -/
def call (cfg : TokenCfg) (token : TokenStr) (db : DB) (now : Nat) :
    Except PyErr UserM :=
  match Token.decode_access cfg token now with
  | .error e => .error e
  | .ok pyload =>
    match List.lookup "email" pyload with
    | none => .error (.keyError "email")
    | some v =>
      if v = JVal.null then .error credentionals_exception
      else
        match getUser v db with
        | none => .error not_found_error
        | some user => .ok user

end Auth

/-! Concrete fixtures used to instantiate the theorems below. -/

/-- A concrete token configuration: 15-minute default and access TTLs, a
7-day refresh TTL, HS256. -/
def cfg0 : TokenCfg :=
  { secret := "secret"
    config :=
      { DEFAULT_EXPIRED := 15, ACCESS_EXPIRED := 15, REFRESH_EXPIRED := 10080
        ALGORITHM := "HS256" } }

/-- A concrete user row. -/
def user0 : UserM :=
  { id := 1, email := "a@x.com", username := "alice", password := "$2b$right" }

/-- The payload of a refresh token issued to `user0` at time 0 with expiry
600. -/
def rpayload0 : Claims :=
  [("email", .str "a@x.com"), ("iat", .num 0), ("exp", .num 600),
   ("scope", .str "refresh_token")]

/-- A refresh token for `user0`, signed with `cfg0`s secret and algorithm. -/
def rtok0 : TokenStr := .signed rpayload0 "secret" "HS256"

/-- The persisted refresh-token row for `rtok0`, owned by `user0`. -/
def rec0 : TokenRec := { token := rtok0, user := some user0, expired_at := 600 }

/-- A database holding `user0` and the live refresh record `rec0`. -/
def db0 : DB := { users := [user0], records := [rec0] }

/-! Lookup lemmas for the dict-update model `dset`. -/

/-- Looking up a different key is unaffected by dropping the bindings of
`k`. -/
lemma lookup_filter_ne (d : Claims) (k k2 : String) (h : k2 ≠ k) :
    List.lookup k2 (d.filter (fun q => !(q.1 == k))) = List.lookup k2 d := by
  induction d with
  | nil => rfl
  | cons q rest ih =>
    by_cases hk : q.1 = k
    · have hne : (k2 == q.1) = false := by
        simp only [beq_eq_false_iff_ne, ne_eq]
        exact fun hq => h (hq ▸ hk)
      have hk2 : (k2 == k) = false := by simp [h]
      simp [List.filter_cons, hk, List.lookup, hne, hk2, ih]
    · simp [List.filter_cons, hk, List.lookup, ih]

/-- Looking up the updated key in `dset d k v` yields `v`. -/
lemma lookup_dset_self (d : Claims) (k : String) (v : JVal) :
    List.lookup k (dset d k v) = some v := by
  simp [dset, List.lookup]

/-- Looking up any other key in `dset d k v` is the lookup in `d`. -/
lemma lookup_dset_ne (d : Claims) (k k2 : String) (v : JVal) (h : k2 ≠ k) :
    List.lookup k2 (dset d k v) = List.lookup k2 d := by
  have hne : (k2 == k) = false := by simp [h]
  simp [dset, List.lookup, hne, lookup_filter_ne d k k2 h]

/-- After `dset d k v` the dict holds exactly one binding of `k`. -/
lemma countP_dset (d : Claims) (k : String) (v : JVal) :
    List.countP (fun q => q.1 == k) (dset d k v) = 1 := by
  simp only [dset, List.countP_cons, beq_self_eq_true, if_pos, List.countP_eq_zero]
  have hz : List.countP (fun q => q.1 == k) (d.filter (fun q => !(q.1 == k))) = 0 := by
    refine List.countP_eq_zero.mpr ?_
    intro a ha
    have := (List.mem_filter.mp ha).2
    simpa using this
  simp [hz]

/-! Claim theorems. -/

/-- C10: calling `create_access` or `create_refresh` with a falsy
`expires_delta` (`None`, `0`) does not produce a token expiring immediately:
the falsy override is replaced by the scope default (`ACCESS_EXPIRED` /
`REFRESH_EXPIRED`), and when that default is itself `0` it is further replaced
by `DEFAULT_EXPIRED` inside `Token.create`, so the expiry is now plus the
applicable configured default in minutes (`60 *` in seconds), strictly in the
future when the configured defaults are positive. -/
theorem falsy_expires_delta_uses_default (cfg : TokenCfg) (data : Claims) (now : Nat)
    (ed : Option Nat) (hfalsy : pyTruthy ed = false)
    (hD : 0 < cfg.config.DEFAULT_EXPIRED) :
    ((Token.create_access cfg data ed now).expired_at =
        now + 60 * (if cfg.config.ACCESS_EXPIRED = 0 then cfg.config.DEFAULT_EXPIRED
          else cfg.config.ACCESS_EXPIRED) ∧
      now < (Token.create_access cfg data ed now).expired_at) ∧
    ((Token.create_refresh cfg data ed now).expired_at =
        now + 60 * (if cfg.config.REFRESH_EXPIRED = 0 then cfg.config.DEFAULT_EXPIRED
          else cfg.config.REFRESH_EXPIRED) ∧
      now < (Token.create_refresh cfg data ed now).expired_at) := by
  have h1 : ∀ b, pyOr ed b = b := fun b => by simp [pyOr, hfalsy]
  constructor
  · simp only [Token.create_access, h1]
    by_cases hA : cfg.config.ACCESS_EXPIRED = 0 <;>
      simp [Token.create, pyTruthy, hA] <;> omega
  · simp only [Token.create_refresh, h1]
    by_cases hR : cfg.config.REFRESH_EXPIRED = 0 <;>
      simp [Token.create, pyTruthy, hR] <;> omega

/-- Witness for C10 at a concrete configuration, an explicit zero override and
time 0. -/
theorem falsy_expires_delta_uses_default_witness :
    ((Token.create_access cfg0 [("email", .str "a@x.com")] (some 0) 0).expired_at =
        0 + 60 * (if cfg0.config.ACCESS_EXPIRED = 0 then cfg0.config.DEFAULT_EXPIRED
          else cfg0.config.ACCESS_EXPIRED) ∧
      0 < (Token.create_access cfg0 [("email", .str "a@x.com")] (some 0) 0).expired_at) ∧
    ((Token.create_refresh cfg0 [("email", .str "a@x.com")] (some 0) 0).expired_at =
        0 + 60 * (if cfg0.config.REFRESH_EXPIRED = 0 then cfg0.config.DEFAULT_EXPIRED
          else cfg0.config.REFRESH_EXPIRED) ∧
      0 < (Token.create_refresh cfg0 [("email", .str "a@x.com")] (some 0) 0).expired_at) :=
  falsy_expires_delta_uses_default cfg0 [("email", .str "a@x.com")] 0 (some 0)
    (by decide) (by decide)

/-- C2 counterexample: the two failure causes of `Token.decode` are not
identical in every observable respect — a codec failure and a scope mismatch
both carry status 401 but distinguishable detail messages. -/
theorem decode_errors_distinguishable_cex :
    Token.decode cfg0 (.malformed "x") .ACCESS 0 =
      .error (.http 401 "Could not validate credentials" []) ∧
    Token.decode cfg0 (.signed [("scope", .str "refresh_token")] "secret" "HS256") .ACCESS 0 =
      .error (.http 401 "Invalid scope for token" []) ∧
    PyErr.http 401 "Could not validate credentials" [] ≠
      PyErr.http 401 "Invalid scope for token" [] :=
  ⟨rfl, rfl, by decide⟩

/-- C2 amended: both failure causes of `Token.decode` raise an HTTP 401, but
the error is not identical across causes — a codec failure (bad signature,
expired, malformed) yields detail "Could not validate credentials" while a
successful decode with a mismatched scope yields detail
"Invalid scope for token", so the detail message leaks which check failed. -/
theorem decode_failure_modes (cfg : TokenCfg) (t : TokenStr) (scope : TokenScopes)
    (now : Nat) :
    (∀ e, coderDecode t cfg.secret [cfg.config.ALGORITHM] now = .error e →
      Token.decode cfg t scope now = .error (.http 401 "Could not validate credentials" [])) ∧
    (∀ p v, coderDecode t cfg.secret [cfg.config.ALGORITHM] now = .ok p →
      List.lookup "scope" p = some v → v ≠ JVal.str scope.value →
      Token.decode cfg t scope now = .error (.http 401 "Invalid scope for token" [])) := by
  constructor
  · intro e he
    simp [Token.decode, he]
  · intro p v hp hv hne
    simp [Token.decode, hp, hv, hne]

/-- Witness for C2 (amended): both failure modes at concrete tokens. -/
theorem decode_failure_modes_witness :
    Token.decode cfg0 (.malformed "y") .REFRESH 0 =
      .error (.http 401 "Could not validate credentials" []) ∧
    Token.decode cfg0 (.signed [("scope", .str "access_token")] "secret" "HS256") .REFRESH 3 =
      .error (.http 401 "Invalid scope for token" []) :=
  ⟨(decode_failure_modes cfg0 (.malformed "y") .REFRESH 0).1 .jwtError rfl,
   (decode_failure_modes cfg0 (.signed [("scope", .str "access_token")] "secret" "HS256")
      .REFRESH 3).2 [("scope", .str "access_token")] (.str "access_token") rfl rfl
     (by decide)⟩

/-- C7 counterexample: on a digest the configured context cannot identify,
`Password.verify` propagates the library error instead of returning a
boolean — it throws, and in particular returns no `Bool` at all. -/
theorem password_verify_throws_on_malformed_cex :
    Password.verify bcryptCtx "pw" "nothash" =
      .error (.passlibError "hash could not be identified") ∧
    ∀ b, Password.verify bcryptCtx "pw" "nothash" ≠ .ok b := by
  refine ⟨rfl, ?_⟩
  intro b h
  simp [Password.verify, bcryptCtx] at h

/-- C7 amended: `Password.verify` adds no exception handling of its own: on a
digest the configured context recognizes it returns the boolean comparison
outcome (False on mismatch), but on a malformed digest it propagates the
context's error rather than returning False. -/
theorem password_verify_propagates_context (password h : String) :
    ("$2b$".data.isPrefixOf h.data = true →
      Password.verify bcryptCtx password h = .ok (h == "$2b$" ++ password)) ∧
    ("$2b$".data.isPrefixOf h.data = false →
      Password.verify bcryptCtx password h =
        .error (.passlibError "hash could not be identified")) := by
  constructor <;> intro hh <;> simp only [Password.verify, bcryptCtx] <;> rw [hh] <;> simp

/-- Witness for C7 (amended): a wrong password against a well-formed digest
gives `False`; a malformed digest gives the propagated library error. -/
theorem password_verify_propagates_context_witness :
    Password.verify bcryptCtx "wrong" "$2b$right" = .ok ("$2b$right" == "$2b$" ++ "wrong") ∧
    Password.verify bcryptCtx "pw" "nothash" =
      .error (.passlibError "hash could not be identified") :=
  ⟨(password_verify_propagates_context "wrong" "$2b$right").1 (by decide),
   (password_verify_propagates_context "pw" "nothash").2 (by decide)⟩

/-- The token built by `Token.create` is the signed encoding of the stamped
payload under the configured secret and algorithm. -/
lemma create_token_struct (cfg : TokenCfg) (data : Claims) (scope : TokenScopes)
    (ed : Option Nat) (now : Nat) :
    (Token.create cfg data scope ed now).token =
      TokenStr.signed
        (dset (dset (dset data "iat" (.num now)) "exp"
          (.num (Token.create cfg data scope ed now).expired_at)) "scope" (.str scope.value))
        cfg.secret cfg.config.ALGORITHM := rfl

/-- C4: every token issued by `Token.create` carries exactly one scope tag,
which is either "access_token" or "refresh_token", and verifying an unexpired
issued token (signed with the right secret and algorithm) against the other
scope fails with an HTTP 401. -/
theorem create_single_scope_wrong_scope_rejected (cfg : TokenCfg) (data : Claims)
    (scope : TokenScopes) (ed : Option Nat) (now now2 : Nat)
    (hfresh : now2 < (Token.create cfg data scope ed now).expired_at) :
    (∃ p, (Token.create cfg data scope ed now).token =
        TokenStr.signed p cfg.secret cfg.config.ALGORITHM ∧
      List.lookup "scope" p = some (.str scope.value) ∧
      List.countP (fun q => q.1 == "scope") p = 1 ∧
      (scope.value = "access_token" ∨ scope.value = "refresh_token")) ∧
    (∀ other : TokenScopes, other ≠ scope →
      Token.decode cfg (Token.create cfg data scope ed now).token other now2 =
        .error (.http 401 "Invalid scope for token" [])) := by
  have htok := create_token_struct cfg data scope ed now
  constructor
  · exact ⟨_, htok, lookup_dset_self _ _ _, countP_dset _ _ _,
      by cases scope <;> simp [TokenScopes.value]⟩
  · intro other hne
    have hval : JVal.str scope.value ≠ JVal.str other.value := by
      cases scope <;> cases other <;> simp_all [TokenScopes.value]
    have hexp : List.lookup "exp"
        (dset (dset (dset data "iat" (.num now)) "exp"
          (.num (Token.create cfg data scope ed now).expired_at)) "scope" (.str scope.value)) =
          some (.num (Token.create cfg data scope ed now).expired_at) := by
      rw [lookup_dset_ne _ _ _ _ (by decide), lookup_dset_self]
    rw [htok]
    simp [Token.decode, coderDecode, hexp, hfresh, lookup_dset_self, hval]

/-- Witness for C4 at a concrete access token, checked against the refresh
scope one second after issuance. -/
theorem create_single_scope_wrong_scope_rejected_witness :
    (∃ p, (Token.create cfg0 [("email", .str "a@x.com")] .ACCESS none 0).token =
        TokenStr.signed p cfg0.secret cfg0.config.ALGORITHM ∧
      List.lookup "scope" p = some (.str TokenScopes.ACCESS.value) ∧
      List.countP (fun q => q.1 == "scope") p = 1 ∧
      (TokenScopes.ACCESS.value = "access_token" ∨
        TokenScopes.ACCESS.value = "refresh_token")) ∧
    (∀ other : TokenScopes, other ≠ .ACCESS →
      Token.decode cfg0 (Token.create cfg0 [("email", .str "a@x.com")] .ACCESS none 0).token
        other 1 = .error (.http 401 "Invalid scope for token" [])) :=
  create_single_scope_wrong_scope_rejected cfg0 [("email", .str "a@x.com")] .ACCESS none 0 1
    (by decide)

/-- C9: issuing an access token and immediately verifying it with the access
scope succeeds and returns a payload that preserves the subject claim passed
at issuance, with an expiry strictly in the future at verification time
(positive configured access TTL). -/
theorem access_round_trip (cfg : TokenCfg) (data : Claims) (now : Nat) (v : JVal)
    (hAcc : 0 < cfg.config.ACCESS_EXPIRED)
    (hsub : List.lookup "email" data = some v) :
    ∃ p, Token.decode_access cfg (Token.create_access cfg data none now).token now = .ok p ∧
      List.lookup "email" p = some v ∧
      ∃ e, List.lookup "exp" p = some (.num e) ∧ now < e := by
  have hA0 : cfg.config.ACCESS_EXPIRED ≠ 0 := Nat.pos_iff_ne_zero.mp hAcc
  have hca : Token.create_access cfg data none now =
      Token.create cfg data .ACCESS (some cfg.config.ACCESS_EXPIRED) now := by
    simp [Token.create_access, pyOr, pyTruthy]
  have hea : (Token.create cfg data .ACCESS (some cfg.config.ACCESS_EXPIRED) now).expired_at =
      now + 60 * cfg.config.ACCESS_EXPIRED := by
    simp [Token.create, pyTruthy, hA0]
  have htok := create_token_struct cfg data .ACCESS (some cfg.config.ACCESS_EXPIRED) now
  have hexp : List.lookup "exp"
      (dset (dset (dset data "iat" (.num now)) "exp"
        (.num (Token.create cfg data .ACCESS (some cfg.config.ACCESS_EXPIRED) now).expired_at))
        "scope" (.str TokenScopes.ACCESS.value)) =
        some (.num (Token.create cfg data .ACCESS
          (some cfg.config.ACCESS_EXPIRED) now).expired_at) := by
    rw [lookup_dset_ne _ _ _ _ (by decide), lookup_dset_self]
  have hemail : List.lookup "email"
      (dset (dset (dset data "iat" (.num now)) "exp"
        (.num (Token.create cfg data .ACCESS (some cfg.config.ACCESS_EXPIRED) now).expired_at))
        "scope" (.str TokenScopes.ACCESS.value)) = some v := by
    rw [lookup_dset_ne _ _ _ _ (by decide), lookup_dset_ne _ _ _ _ (by decide),
      lookup_dset_ne _ _ _ _ (by decide), hsub]
  have hfresh : now < (Token.create cfg data .ACCESS
      (some cfg.config.ACCESS_EXPIRED) now).expired_at := by
    rw [hea]; omega
  refine ⟨_, ?_, hemail, (Token.create cfg data .ACCESS
    (some cfg.config.ACCESS_EXPIRED) now).expired_at, hexp, hfresh⟩
  rw [hca, Token.decode_access, htok]
  simp [Token.decode, coderDecode, hexp, hfresh, lookup_dset_self]

/-- Witness for C9 at a concrete subject and time 0. -/
theorem access_round_trip_witness :
    ∃ p, Token.decode_access cfg0
        (Token.create_access cfg0 [("email", .str "a@x.com")] none 0).token 0 = .ok p ∧
      List.lookup "email" p = some (.str "a@x.com") ∧
      ∃ e, List.lookup "exp" p = some (.num e) ∧ 0 < e :=
  access_round_trip cfg0 [("email", .str "a@x.com")] 0 (.str "a@x.com") (by decide) rfl

/-- C5: `Auth.authenticate` fails with `invalid_credential_error` both when no
user matches the supplied username-or-email and when a user matches but
password verification returns false; the raised error is the very same value
in the two cases, revealing nothing about which occurred. -/
theorem authenticate_invalid_credentials_identical (ctx : CryptCtx) (cfg : TokenCfg)
    (credentials : Credentials) (db : DB) (now : Nat)
    (h : Auth.getUser (.str credentials.username) db = none ∨
      ∃ u, Auth.getUser (.str credentials.username) db = some u ∧
        Password.verify ctx credentials.password u.password = .ok false) :
    Auth.authenticate ctx cfg credentials db now = .error Auth.invalid_credential_error := by
  rcases h with h | ⟨u, hu, hv⟩
  · simp [Auth.authenticate, Auth.validate, h]
  · simp [Auth.authenticate, Auth.validate, hu, hv]

/-- Witness for C5: an unknown username and a known user with a wrong password
both yield `invalid_credential_error`. -/
theorem authenticate_invalid_credentials_identical_witness :
    Auth.authenticate bcryptCtx cfg0 { username := "nobody", password := "pw" } db0 0 =
      .error Auth.invalid_credential_error ∧
    Auth.authenticate bcryptCtx cfg0 { username := "alice", password := "wrong" } db0 0 =
      .error Auth.invalid_credential_error :=
  ⟨authenticate_invalid_credentials_identical bcryptCtx cfg0
      { username := "nobody", password := "pw" } db0 0 (Or.inl rfl),
   authenticate_invalid_credentials_identical bcryptCtx cfg0
      { username := "alice", password := "wrong" } db0 0 (Or.inr ⟨user0, rfl, rfl⟩)⟩

/-- C6: when an access token passes verification and carries a non-null
subject value but the user lookup finds no user, `Auth.__call__` fails with
`not_found_error` (404 "User not found"), a distinct error from the generic
`credentionals_exception`, after token validity has been established. -/
theorem resolve_deleted_user_not_found (cfg : TokenCfg) (t : TokenStr) (db : DB)
    (now : Nat) (p : Claims) (v : JVal)
    (hdec : Token.decode_access cfg t now = .ok p)
    (hv : List.lookup "email" p = some v)
    (hnn : v ≠ JVal.null)
    (hu : Auth.getUser v db = none) :
    Auth.call cfg t db now = .error Auth.not_found_error ∧
      Auth.not_found_error ≠ Auth.credentionals_exception := by
  refine ⟨?_, by decide⟩
  simp [Auth.call, hdec, hv, hnn, hu]

/-- Witness for C6: a valid access token whose subject no longer exists in the
database. -/
theorem resolve_deleted_user_not_found_witness :
    Auth.call cfg0
        (.signed [("email", .str "ghost@x.com"), ("exp", .num 600),
          ("scope", .str "access_token")] "secret" "HS256") db0 5 =
      .error Auth.not_found_error ∧
      Auth.not_found_error ≠ Auth.credentionals_exception :=
  resolve_deleted_user_not_found cfg0
    (.signed [("email", .str "ghost@x.com"), ("exp", .num 600),
      ("scope", .str "access_token")] "secret" "HS256") db0 5
    [("email", .str "ghost@x.com"), ("exp", .num 600), ("scope", .str "access_token")]
    (.str "ghost@x.com") rfl rfl (by decide) rfl

/-- C8 counterexample: an access token that passes verification but lacks the
subject key entirely makes `Auth.__call__` raise a `KeyError`, which is not an
`HTTPException` at all — in particular not the 401 Unauthorized the claim
requires. -/
theorem resolve_missing_subject_keyerror_cex :
    Token.decode_access cfg0
        (.signed [("scope", .str "access_token")] "secret" "HS256") 0 =
      .ok [("scope", .str "access_token")] ∧
    Auth.call cfg0 (.signed [("scope", .str "access_token")] "secret" "HS256") db0 0 =
      .error (.keyError "email") ∧
    ∀ st d hd, PyErr.keyError "email" ≠ PyErr.http st d hd :=
  ⟨rfl, rfl, fun _ _ _ h => PyErr.noConfusion h⟩

/-- C8 amended: for an access token that passes verification, a subject value
of `None` makes `Auth.__call__` fail with the 401 `credentionals_exception`,
but a payload with the subject key missing entirely raises an unhandled
`KeyError` instead of an HTTP 401. -/
theorem resolve_subject_claim_handling (cfg : TokenCfg) (t : TokenStr) (db : DB)
    (now : Nat) (p : Claims)
    (hdec : Token.decode_access cfg t now = .ok p) :
    (List.lookup "email" p = some JVal.null →
      Auth.call cfg t db now = .error Auth.credentionals_exception) ∧
    (List.lookup "email" p = none →
      Auth.call cfg t db now = .error (.keyError "email")) := by
  constructor <;> intro h <;> simp [Auth.call, hdec, h]

/-- Witness for C8 (amended): a null subject and a missing subject key, on
concrete verified access tokens. -/
theorem resolve_subject_claim_handling_witness :
    Auth.call cfg0 (.signed [("email", JVal.null), ("scope", .str "access_token")]
        "secret" "HS256") db0 0 = .error Auth.credentionals_exception ∧
    Auth.call cfg0 (.signed [("scope", .str "access_token")] "secret" "HS256") db0 0 =
      .error (.keyError "email") :=
  ⟨(resolve_subject_claim_handling cfg0
      (.signed [("email", JVal.null), ("scope", .str "access_token")] "secret" "HS256") db0 0
      [("email", JVal.null), ("scope", .str "access_token")] rfl).1 rfl,
   (resolve_subject_claim_handling cfg0
      (.signed [("scope", .str "access_token")] "secret" "HS256") db0 0
      [("scope", .str "access_token")] rfl).2 rfl⟩

/-- C1: the failure paths of `Auth.refresh` raise the generic
`credentionals_exception` (401 "Could not validate credentials" with a
WWW-Authenticate header), not the class's own `invalid_refresh_token_error`
(401 "Invalid refresh token") that the claim requires — shown on a first
successful call that consumes the record followed by a second call with the
same token, and on a valid-looking token whose record is absent from the
start. -/
theorem refresh_consumed_token_generic_error_cex :
    (∃ pair, (Auth.refresh cfg0 rtok0 db0 5).1 = .ok pair) ∧
    (Auth.refresh cfg0 rtok0 (Auth.refresh cfg0 rtok0 db0 5).2.1 6).1 =
      .error Auth.credentionals_exception ∧
    (Auth.refresh cfg0 rtok0 { users := [user0], records := [] } 5).1 =
      .error Auth.credentionals_exception ∧
    Auth.credentionals_exception ≠ Auth.invalid_refresh_token_error :=
  ⟨⟨_, rfl⟩, by rfl, by rfl, by decide⟩

/-- C3: in every execution of `Auth.refresh` whose token decodes with a
subject claim present and whose persisted record is found, the mutation trace
starts with the deletion of that record and its commit — so the deletion
precedes the final user/record/ownership checks and any insertion of a new
record — and when those final checks fail the returned database still has the
old record erased (the token was consumed). -/
theorem refresh_deletes_record_before_checks (cfg : TokenCfg) (t : TokenStr) (db : DB)
    (now : Nat) (p : Claims) (v : JVal) (r : TokenRec)
    (hdec : Token.decode_refresh cfg t now = .ok p)
    (hemail : List.lookup "email" p = some v)
    (hrec : db.records.find? (fun x => x.token == t) = some r) :
    ∃ rest, (Auth.refresh cfg t db now).2.2 = Ev.deleteRec r.token :: Ev.commit :: rest ∧
      ((∃ e, (Auth.refresh cfg t db now).1 = .error e) →
        (Auth.refresh cfg t db now).2.1 = { db with records := db.records.erase r }) := by
  rcases hu : Auth.getUser v db with _ | u
  · have hr : Auth.refresh cfg t db now =
        (.error Auth.credentionals_exception,
         { db with records := db.records.erase r },
         [Ev.deleteRec r.token, Ev.commit]) := by
      simp [Auth.refresh, hdec, hrec, hemail, hu]
    rw [hr]
    exact ⟨[], rfl, fun _ => rfl⟩
  · by_cases hru : r.user = some u
    · have hr : Auth.refresh cfg t db now =
          (.ok (Auth.generateTokens cfg u { db with records := db.records.erase r } now).1,
           (Auth.generateTokens cfg u { db with records := db.records.erase r } now).2.1,
           Ev.deleteRec r.token :: Ev.commit ::
             (Auth.generateTokens cfg u { db with records := db.records.erase r } now).2.2) := by
        simp [Auth.refresh, hdec, hrec, hemail, hu, hru]
      rw [hr]
      exact ⟨_, rfl, fun h => absurd h.choose_spec (by simp)⟩
    · have hr : Auth.refresh cfg t db now =
          (.error Auth.credentionals_exception,
           { db with records := db.records.erase r },
           [Ev.deleteRec r.token, Ev.commit]) := by
        simp [Auth.refresh, hdec, hrec, hemail, hu, hru]
      rw [hr]
      exact ⟨[], rfl, fun _ => rfl⟩

/-- Witness for C3: the concrete refresh of `rtok0` against `db0`. -/
theorem refresh_deletes_record_before_checks_witness :
    ∃ rest, (Auth.refresh cfg0 rtok0 db0 5).2.2 =
        Ev.deleteRec rec0.token :: Ev.commit :: rest ∧
      ((∃ e, (Auth.refresh cfg0 rtok0 db0 5).1 = .error e) →
        (Auth.refresh cfg0 rtok0 db0 5).2.1 =
          { db0 with records := db0.records.erase rec0 }) :=
  refresh_deletes_record_before_checks cfg0 rtok0 db0 5 rpayload0 (.str "a@x.com") rec0
    rfl rfl rfl

end AuthSpec
